import Mathlib

/-!
Shallow embedding of the core of `wise-agents` (`src/wiseagents/core.py`):
the shared `WiseAgentContext` chat-state, the `WiseAgentRegistry`, and the
`WiseAgent.handle_request` / `handle_response` routing logic.

The embedding models the local (in-memory, `use_redis == False`) branches of
every operation; Python dictionaries become functions `String → Option α`,
Python lists become `List`, and operations that can raise a Python exception
return `Except PyErr _`.  Where the networked (Redis) branch of a method has
observably different sequential logic, it is embedded separately (with the
watch/multi retry loop collapsed, as in a single-process run) under a
`_redis` suffix, abstracting the Redis hash for the relevant key as the same
kind of string-keyed map.
-/

namespace WiseAgents

/-- A Python `dict` keyed by strings: total function to `Option`.  An absent
key is `none`; `dict == {}`-style equality is extensional equality. -/
abbrev PyDict (α : Type) := String → Option α

/-- The empty Python dict. -/
def PyDict.empty {α : Type} : PyDict α := fun _ => none

/-- Python `d[k] = v`. -/
def PyDict.set {α : Type} (m : PyDict α) (k : String) (v : α) : PyDict α :=
  fun q => if q = k then some v else m q

/-- Python `d.pop(k)` / Redis `hdel` (ignoring the returned value). -/
def PyDict.pop {α : Type} (m : PyDict α) (k : String) : PyDict α :=
  fun q => if q = k then none else m q

@[simp] theorem PyDict.set_self {α : Type} (m : PyDict α) (k : String) (v : α) :
    m.set k v k = some v := by
  simp [PyDict.set]

@[simp] theorem PyDict.set_ne {α : Type} (m : PyDict α) (k q : String) (v : α)
    (h : q ≠ k) : m.set k v q = m q := by
  simp [PyDict.set, h]

@[simp] theorem PyDict.pop_self {α : Type} (m : PyDict α) (k : String) :
    m.pop k k = none := by
  simp [PyDict.pop]

@[simp] theorem PyDict.pop_ne {α : Type} (m : PyDict α) (k q : String)
    (h : q ≠ k) : m.pop k q = m q := by
  simp [PyDict.pop, h]

/-- Python exceptions that the embedded operations can raise. -/
inductive PyErr where
  | keyError
  | indexError
  | valueError
  | attributeError
  | typeError
  | nameError
deriving DecidableEq, Repr

/-- Embedding of `WiseAgentCollaborationType` (core.py lines 23-27). -/
inductive WiseAgentCollaborationType where
  | SEQUENTIAL
  | PHASED
  | INDEPENDENT
  | CHAT
deriving DecidableEq, Repr

/-- A chat-completion message record (`ChatCompletionMessageParam`); only the
`role`/`content` fields are relevant to the core logic. -/
structure ChatMsg where
  role : String
  content : String
deriving DecidableEq, Repr

/-- The class-level attributes of `WiseAgentContext` (core.py lines 117-153).
These are *class* attributes, shared by every instance of the class: the
instance methods mutate them in place and never rebind them on `self`, so one
single state is visible through all instances.  Tool descriptors
(`ChatCompletionToolParam`) are opaque to the core logic and modelled as
strings. -/
structure ContextState where
  message_trace : List String
  participants : List String
  llm_chat_completion : PyDict (List ChatMsg)
  llm_required_tool_call : PyDict (List String)
  llm_available_tools_in_chat : PyDict (List String)
  agents_sequence : PyDict (List String)
  route_response_to : PyDict String
  agent_phase_assignments : PyDict (List (List String))
  current_phase : PyDict Nat
  required_agents_for_current_phase : PyDict (List String)
  queries : PyDict (List String)
  collaboration_type : PyDict WiseAgentCollaborationType

/-- The initial values of the class-level attributes (all empty). -/
def initialContext : ContextState where
  message_trace := []
  participants := []
  llm_chat_completion := PyDict.empty
  llm_required_tool_call := PyDict.empty
  llm_available_tools_in_chat := PyDict.empty
  agents_sequence := PyDict.empty
  route_response_to := PyDict.empty
  agent_phase_assignments := PyDict.empty
  current_phase := PyDict.empty
  required_agents_for_current_phase := PyDict.empty
  queries := PyDict.empty
  collaboration_type := PyDict.empty

namespace ContextState

/-- Embedding of `add_participant` (core.py lines 240-271, local branch lines 269-271):
append `agent_name` only if it is not already present. -/
def add_participant (st : ContextState) (agent_name : String) : ContextState :=
  if agent_name ∈ st.participants then st
  else { st with participants := st.participants ++ [agent_name] }

/-- Embedding of `append_chat_completion` (lines 273-304, local branch lines 301-304):
create the list if absent, then append the `messages` argument as one
element. -/
def append_chat_completion (st : ContextState) (chat_uuid : String)
    (messages : ChatMsg) : ContextState :=
  { st with llm_chat_completion :=
      (st.llm_chat_completion.set chat_uuid
        (((st.llm_chat_completion chat_uuid).getD []) ++ [messages])) }

/-- Embedding of `append_required_tool_call` (lines 319-347, local branch lines 344-347). -/
def append_required_tool_call (st : ContextState) (chat_uuid tool_name : String) :
    ContextState :=
  { st with llm_required_tool_call :=
      (st.llm_required_tool_call.set chat_uuid
        (((st.llm_required_tool_call chat_uuid).getD []) ++ [tool_name])) }

/-- Embedding of `remove_required_tool_call` (lines 349-382, local path lines 379-382):
no-op when the chat key is absent; otherwise Python `list.remove` removes the
first occurrence and raises `ValueError` when the name is not in the list;
when the resulting list is empty the key is popped. -/
def remove_required_tool_call (st : ContextState) (chat_uuid tool_name : String) :
    Except PyErr ContextState :=
  match st.llm_required_tool_call chat_uuid with
  | none => .ok st
  | some stored =>
    if tool_name ∈ stored then
      let removed := stored.erase tool_name
      if removed.length = 0 then
        .ok { st with llm_required_tool_call :=
                (st.llm_required_tool_call.pop chat_uuid) }
      else
        .ok { st with llm_required_tool_call :=
                (st.llm_required_tool_call.set chat_uuid removed) }
    else .error .valueError

/-- Embedding of `get_required_tool_calls` (lines 384-399, local branch). -/
def get_required_tool_calls (st : ContextState) (chat_uuid : String) : List String :=
  (st.llm_required_tool_call chat_uuid).getD []

/-- Embedding of `get_available_tools_in_chat` (lines 444-460, local branch). -/
def get_available_tools_in_chat (st : ContextState) (chat_uuid : String) : List String :=
  (st.llm_available_tools_in_chat chat_uuid).getD []

/-- Embedding of `get_agents_sequence` (lines 462-483, local branch). -/
def get_agents_sequence (st : ContextState) (chat_uuid : String) : List String :=
  (st.agents_sequence chat_uuid).getD []

/-- Embedding of `set_agents_sequence` (lines 485-498, local branch). -/
def set_agents_sequence (st : ContextState) (chat_uuid : String)
    (agents_sequence : List String) : ContextState :=
  { st with agents_sequence := st.agents_sequence.set chat_uuid agents_sequence }

/-- Embedding of `get_route_response_to` (lines 500-518, local branch). -/
def get_route_response_to (st : ContextState) (chat_uuid : String) : Option String :=
  st.route_response_to chat_uuid

/-- Embedding of `set_route_response_to` (lines 520-532, local branch). -/
def set_route_response_to (st : ContextState) (chat_uuid agent : String) : ContextState :=
  { st with route_response_to := st.route_response_to.set chat_uuid agent }

/-- Embedding of `get_next_agent_in_sequence` (lines 534-553): the element after the first
occurrence of `current_agent` in the sequence, or `none` when `current_agent`
is last or absent.  The `getD` default is unreachable under the length
guard. -/
def get_next_agent_in_sequence (st : ContextState) (chat_uuid current_agent : String) :
    Option String :=
  let agents_sequence := st.get_agents_sequence chat_uuid
  if current_agent ∈ agents_sequence then
    let current_agent_index := agents_sequence.indexOf current_agent
    let next_agent_index := current_agent_index + 1
    if next_agent_index < agents_sequence.length then
      some (agents_sequence.getD next_agent_index "")
    else none
  else none

/-- Embedding of `get_agent_phase_assignments` (lines 555-578, local branch). -/
def get_agent_phase_assignments (st : ContextState) (chat_uuid : String) :
    List (List String) :=
  (st.agent_phase_assignments chat_uuid).getD []

/-- Embedding of `set_agent_phase_assignments` (lines 580-594, local branch). -/
def set_agent_phase_assignments (st : ContextState) (chat_uuid : String)
    (agent_phase_assignments : List (List String)) : ContextState :=
  { st with agent_phase_assignments :=
      (st.agent_phase_assignments.set chat_uuid agent_phase_assignments) }

/-- Embedding of `get_current_phase` (lines 596-613, local branch): `dict.get`, so `none`
when unset. -/
def get_current_phase (st : ContextState) (chat_uuid : String) : Option Nat :=
  st.current_phase chat_uuid

/-- Embedding of `set_current_phase` (lines 615-631, local branch): stores the phase and
then snapshots `agent_phase_assignments[chat_uuid][phase]` (a `copy.deepcopy`
in the source, hence an independent value) into
`required_agents_for_current_phase[chat_uuid]`.  The indexing raises
`KeyError` when the chat has no phase assignments and `IndexError` when
`phase` is out of range; the phase dictionary has already been written at
that point, as in the source.  The `getD` default is unreachable under the
length guard. -/
def set_current_phase (st : ContextState) (chat_uuid : String) (phase : Nat) :
    Except PyErr ContextState :=
  let st1 := { st with current_phase := st.current_phase.set chat_uuid phase }
  match st1.agent_phase_assignments chat_uuid with
  | none => .error .keyError
  | some phases =>
    if phase < phases.length then
      .ok { st1 with required_agents_for_current_phase :=
              (st1.required_agents_for_current_phase.set chat_uuid (phases.getD phase [])) }
    else .error .indexError

/-- Embedding of `get_agents_for_next_phase` (lines 633-649): adds one to the current
phase (`TypeError` when the phase was never set, since Python adds `1` to
`None`), and when a next phase exists advances via `set_current_phase` and
returns that phase's agent list read back from the updated state; otherwise
returns `None` leaving the state untouched. -/
def get_agents_for_next_phase (st : ContextState) (chat_uuid : String) :
    Except PyErr (Option (List String) × ContextState) :=
  match st.get_current_phase chat_uuid with
  | none => .error .typeError
  | some current_phase =>
    let next_phase := current_phase + 1
    if next_phase < (st.get_agent_phase_assignments chat_uuid).length then
      match st.set_current_phase chat_uuid next_phase with
      | .error e => .error e
      | .ok st2 =>
        let phases2 := st2.get_agent_phase_assignments chat_uuid
        if next_phase < phases2.length then
          .ok (some (phases2.getD next_phase []), st2)
        else .error .indexError
    else .ok (none, st)

/-- Embedding of `get_required_agents_for_current_phase` (lines 651-672, local branch). -/
def get_required_agents_for_current_phase (st : ContextState) (chat_uuid : String) :
    List String :=
  (st.required_agents_for_current_phase chat_uuid).getD []

/-- Embedding of `remove_required_agent_for_current_phase` (lines 674-706, local branch
lines 704-706): no-op when the chat key is absent; otherwise `list.remove`,
which raises `ValueError` when the agent is not in the list.  Note: unlike
the Redis branch (lines 695-696) and unlike `remove_required_tool_call`, the
local branch does **not** delete the key when the list becomes empty. -/
def remove_required_agent_for_current_phase (st : ContextState)
    (chat_uuid agent_name : String) : Except PyErr ContextState :=
  match st.required_agents_for_current_phase chat_uuid with
  | none => .ok st
  | some stored =>
    if agent_name ∈ stored then
      .ok { st with required_agents_for_current_phase :=
              (st.required_agents_for_current_phase.set chat_uuid (stored.erase agent_name)) }
    else .error .valueError

/-- The Redis branch of `remove_required_agent_for_current_phase` (lines
683-703), with the Redis hash `required_agents_for_current_phase` abstracted
as a map and the watch/retry loop collapsed: it *does* `hdel` the key when
the list becomes empty. -/
def remove_required_agent_for_current_phase_redis (m : PyDict (List String))
    (chat_uuid agent_name : String) : Except PyErr (PyDict (List String)) :=
  match m chat_uuid with
  | none => .ok m
  | some stored =>
    if agent_name ∈ stored then
      let removed := stored.erase agent_name
      if removed.length = 0 then .ok (m.pop chat_uuid)
      else .ok (m.set chat_uuid removed)
    else .error .valueError

/-- Embedding of `get_current_query` (lines 708-731, local branch): last element of the
query list when present and non-empty, `None` otherwise (the empty-list case
falls off the end of the Python function). -/
def get_current_query (st : ContextState) (chat_uuid : String) : Option String :=
  (st.queries chat_uuid).bind List.getLast?

/-- Embedding of `add_query` (lines 733-762, local branch). -/
def add_query (st : ContextState) (chat_uuid query : String) : ContextState :=
  { st with queries :=
      (st.queries.set chat_uuid (((st.queries chat_uuid).getD []) ++ [query])) }

/-- Embedding of `get_queries` (lines 764-780, local branch). -/
def get_queries (st : ContextState) (chat_uuid : String) : List String :=
  (st.queries chat_uuid).getD []

/-- Embedding of `get_collaboration_type` (lines 794-813, local branch): `INDEPENDENT`
when the chat id is absent from the dictionary (in particular when the chat
id is `None`, which is never a key). -/
def get_collaboration_type (st : ContextState) (chat_uuid : Option String) :
    WiseAgentCollaborationType :=
  match chat_uuid with
  | some c => (st.collaboration_type c).getD .INDEPENDENT
  | none => .INDEPENDENT

/-- Embedding of `set_collaboration_type` (lines 815-826, local branch). -/
def set_collaboration_type (st : ContextState) (chat_uuid : String)
    (ct : WiseAgentCollaborationType) : ContextState :=
  { st with collaboration_type := st.collaboration_type.set chat_uuid ct }

end ContextState

/-- A `WiseAgentContext` *instance*: its `__init__` (lines 160-171) sets only
`_name` (and the store configuration); every chat-state map is a class-level
attribute, so an instance carries no per-instance chat state. -/
structure WiseAgentContext where
  name : String
deriving DecidableEq, Repr

namespace WiseAgentContext

/-- Instance-method view of `append_chat_completion`: the method body reads
and mutates the class-level dictionaries only, so the instance is unused. -/
def append_chat_completion (_self : WiseAgentContext) (st : ContextState)
    (chat_uuid : String) (messages : ChatMsg) : ContextState :=
  st.append_chat_completion chat_uuid messages

/-- Instance-method view of `add_participant`. -/
def add_participant (_self : WiseAgentContext) (st : ContextState)
    (agent_name : String) : ContextState :=
  st.add_participant agent_name

/-- Instance-method view of `set_collaboration_type`. -/
def set_collaboration_type (_self : WiseAgentContext) (st : ContextState)
    (chat_uuid : String) (ct : WiseAgentCollaborationType) : ContextState :=
  st.set_collaboration_type chat_uuid ct

/-- Instance-method view of the `llm_chat_completion` property (lines
228-238, local branch). -/
def llm_chat_completion (_self : WiseAgentContext) (st : ContextState) :
    PyDict (List ChatMsg) :=
  st.llm_chat_completion

/-- Instance-method view of the `participants` property (lines 220-226,
local branch). -/
def participants (_self : WiseAgentContext) (st : ContextState) : List String :=
  st.participants

/-- Instance-method view of `get_collaboration_type`. -/
def get_collaboration_type (_self : WiseAgentContext) (st : ContextState)
    (chat_uuid : Option String) : WiseAgentCollaborationType :=
  st.get_collaboration_type chat_uuid

end WiseAgentContext

/-- Whether a message was dispatched with `transport.send_request` (landing
on the destination's request queue, i.e. delivered as a REQUEST) or with
`transport.send_response` (the destination's response queue). -/
inductive SendKind where
  | request
  | response
deriving DecidableEq, Repr

/-- An outbound `WiseAgentMessage` as constructed in `handle_response`:
`message` content, stamped `sender`, context name, chat id, whether
`message_type=ACK` was set explicitly, and the destination agent passed to
the transport (the destination can be `None` when
`get_route_response_to` finds no route). -/
structure SentMessage where
  kind : SendKind
  content : String
  sender : String
  context_name : String
  chat_id : String
  ack : Bool
  dest : Option String
deriving DecidableEq, Repr

namespace WiseAgent

/-- Embedding of `WiseAgent.send_request` (lines 935-945): stamps the sender, adds the
sending agent as a participant of the context, hands the message to the
transport and appends it to the message trace.  (`trace` stores the message
`repr`; the trace entry is modelled by the message content.) -/
def send_request (st : ContextState) (self_name content context_name chat_id : String)
    (dest_agent_name : String) : SentMessage × ContextState :=
  let message : SentMessage :=
    { kind := .request, content := content, sender := self_name,
      context_name := context_name, chat_id := chat_id, ack := false,
      dest := some dest_agent_name }
  let st1 := st.add_participant self_name
  (message, { st1 with message_trace := st1.message_trace ++ [content] })

/-- Embedding of `WiseAgent.send_response` (lines 947-957); same side effects as
`send_request`, dispatching on the response queue instead. -/
def send_response (st : ContextState) (self_name content context_name chat_id : String)
    (ack : Bool) (dest_agent_name : Option String) : SentMessage × ContextState :=
  let message : SentMessage :=
    { kind := .response, content := content, sender := self_name,
      context_name := context_name, chat_id := chat_id, ack := ack,
      dest := dest_agent_name }
  let st1 := st.add_participant self_name
  (message, { st1 with message_trace := st1.message_trace ++ [content] })

/-- Embedding of `WiseAgent.get_conversation_history_if_needed` (lines 980-1003): for a
truthy chat id and PHASED or CHAT collaboration it returns
`context.llm_chat_completion.get(chat_id)` — a raw `dict.get`, which is
`None` (here `none`) when the chat id has no stored history; in every other
case it returns the empty list (`some []`). -/
def get_conversation_history_if_needed (st : ContextState)
    (chat_id : Option String) (collaboration_type : WiseAgentCollaborationType) :
    Option (List ChatMsg) :=
  match chat_id with
  | some cid =>
    if cid ≠ "" then
      if collaboration_type = .PHASED ∨ collaboration_type = .CHAT then
        st.llm_chat_completion cid
      else some []
    else some []
  | none => some []

/-- Embedding of `WiseAgent.handle_response` (lines 1023-1069).  A falsy response (Python
`None` or the empty string) routes nothing.  Otherwise: PHASED/CHAT append
an assistant record to the shared history and ACK the request's sender;
SEQUENTIAL forwards a new request to the next agent in the sequence, or
sends the final response to `get_route_response_to` when there is no next
agent; everything else (INDEPENDENT) responds directly to the sender.  The
constant `return True` of the source is omitted.  Results: the list of
messages handed to the transport, and the updated shared state. -/
def handle_response (st : ContextState) (self_name : String)
    (response_str : Option String) (request_sender : String)
    (context_name chat_id : String)
    (collaboration_type : WiseAgentCollaborationType) :
    List SentMessage × ContextState :=
  match response_str with
  | none => ([], st)
  | some s =>
    if s = "" then ([], st)
    else if collaboration_type = .PHASED ∨ collaboration_type = .CHAT then
      let st1 := st.append_chat_completion chat_id { role := "assistant", content := s }
      let sent := send_response st1 self_name s context_name chat_id true (some request_sender)
      ([sent.1], sent.2)
    else if collaboration_type = .SEQUENTIAL then
      match st.get_next_agent_in_sequence chat_id self_name with
      | none =>
        let sent := send_response st self_name s context_name chat_id false
          (st.get_route_response_to chat_id)
        ([sent.1], sent.2)
      | some next_agent =>
        let sent := send_request st self_name s context_name chat_id next_agent
        ([sent.1], sent.2)
    else
      let sent := send_response st self_name s context_name chat_id false (some request_sender)
      ([sent.1], sent.2)

end WiseAgent

/-- The local-mode state of `WiseAgentRegistry` (core.py lines 1128-1139):
its class attributes are `agents_descriptions_dict`, `contexts`, `tools`,
`config` and `redis_db`.  Only the agent directory matters to the embedded
claims; tool payloads are opaque. -/
structure RegistryState where
  agents_descriptions_dict : PyDict String
  tools : PyDict String

/-- The initial registry state (empty directories). -/
def initialRegistry : RegistryState where
  agents_descriptions_dict := PyDict.empty
  tools := PyDict.empty

namespace WiseAgentRegistry

/-- Python attribute lookup of `cls.agents` inside
`WiseAgentRegistry.register_agent` (lines 1211 and 1213).  The class defines
no attribute named `agents` (its directory is `agents_descriptions_dict`,
lines 1133-1139, and no code ever assigns `cls.agents`), so the lookup
raises `AttributeError`. -/
def getattr_agents (_st : RegistryState) : Except PyErr (PyDict String) :=
  .error .attributeError

/-- Embedding of `WiseAgentRegistry.register_agent`, local branch (lines 1210-1213):

```
if cls.agents.get(agent_name) is not None:
    raise NameError(...)
cls.agents[agent_name] = agent_description
```

Both the conflict check and the insert read `cls.agents`; the insert branch
is unreachable because the attribute lookup raises first. -/
def register_agent (st : RegistryState) (agent_name agent_description : String) :
    Except PyErr RegistryState :=
  match getattr_agents st with
  | .error e => .error e
  | .ok agents =>
    if (agents agent_name).isSome then .error .nameError
    else
      match getattr_agents st with
      | .error e => .error e
      | .ok _resolved =>
        .ok { st with agents_descriptions_dict :=
                (st.agents_descriptions_dict.set agent_name agent_description) }

/-- The Redis branch of `register_agent` (lines 1194-1209), with the `agents`
hash abstracted as a map and the watch/retry loop collapsed: raise
`NameError` when the name exists (leaving the hash untouched), otherwise
insert. -/
def register_agent_redis (agents : PyDict String) (agent_name agent_description : String) :
    Except PyErr (PyDict String) :=
  if (agents agent_name).isSome then .error .nameError
  else .ok (agents.set agent_name agent_description)

end WiseAgentRegistry

/-! ### Helper lemmas -/

theorem set_current_phase_ok (st : ContextState) (chat : String)
    (phases : List (List String)) (phase : Nat)
    (h : st.agent_phase_assignments chat = some phases) (hp : phase < phases.length) :
    st.set_current_phase chat phase = .ok
      { st with current_phase := st.current_phase.set chat phase,
                required_agents_for_current_phase :=
                  (st.required_agents_for_current_phase.set chat (phases.getD phase [])) } := by
  unfold ContextState.set_current_phase
  simp [h, hp]

theorem remove_required_agent_ok (st : ContextState) (chat a : String) (l : List String)
    (h : st.required_agents_for_current_phase chat = some l) (hm : a ∈ l) :
    st.remove_required_agent_for_current_phase chat a = .ok
      { st with required_agents_for_current_phase :=
          (st.required_agents_for_current_phase.set chat (l.erase a)) } := by
  unfold ContextState.remove_required_agent_for_current_phase
  simp [h, hm]

theorem get_agents_for_next_phase_advance (st : ContextState) (chat : String)
    (p : Nat) (phases : List (List String))
    (hc : st.current_phase chat = some p) (ha : st.agent_phase_assignments chat = some phases)
    (h : p + 1 < phases.length) :
    st.get_agents_for_next_phase chat = .ok (some (phases.getD (p + 1) []),
      { st with current_phase := st.current_phase.set chat (p + 1),
                required_agents_for_current_phase :=
                  (st.required_agents_for_current_phase.set chat (phases.getD (p + 1) [])) }) := by
  simp [ContextState.get_agents_for_next_phase, ContextState.get_current_phase,
    ContextState.get_agent_phase_assignments, hc, ha, h,
    set_current_phase_ok st chat phases (p + 1) ha h]

theorem get_agents_for_next_phase_last (st : ContextState) (chat : String) (p : Nat)
    (hc : st.current_phase chat = some p)
    (h : ¬ p + 1 < (st.get_agent_phase_assignments chat).length) :
    st.get_agents_for_next_phase chat = .ok (none, st) := by
  unfold ContextState.get_agents_for_next_phase
  simp [ContextState.get_current_phase, hc, h]

/-! ### Claims -/

/-- C5: Empty defaults for unseen chats.  For a chat id on which no mutator
has ever been called (equivalently: absent from every chat-keyed map),
`get_agents_sequence`, `get_required_tool_calls`,
`get_available_tools_in_chat`, `get_agent_phase_assignments`,
`get_required_agents_for_current_phase` and `get_queries` return `[]`;
`get_route_response_to`, `get_current_phase` and `get_current_query` return
`none`; `get_collaboration_type` returns `INDEPENDENT`.  All getters are
total (they raise nothing). -/
theorem c5_empty_defaults (st : ContextState) (chat : String)
    (h1 : st.agents_sequence chat = none)
    (h2 : st.llm_required_tool_call chat = none)
    (h3 : st.llm_available_tools_in_chat chat = none)
    (h4 : st.agent_phase_assignments chat = none)
    (h5 : st.required_agents_for_current_phase chat = none)
    (h6 : st.queries chat = none)
    (h7 : st.route_response_to chat = none)
    (h8 : st.current_phase chat = none)
    (h9 : st.collaboration_type chat = none) :
    st.get_agents_sequence chat = []
    ∧ st.get_required_tool_calls chat = []
    ∧ st.get_available_tools_in_chat chat = []
    ∧ st.get_agent_phase_assignments chat = []
    ∧ st.get_required_agents_for_current_phase chat = []
    ∧ st.get_queries chat = []
    ∧ st.get_route_response_to chat = none
    ∧ st.get_current_phase chat = none
    ∧ st.get_current_query chat = none
    ∧ st.get_collaboration_type (some chat) = .INDEPENDENT := by
  simp [ContextState.get_agents_sequence, ContextState.get_required_tool_calls,
    ContextState.get_available_tools_in_chat, ContextState.get_agent_phase_assignments,
    ContextState.get_required_agents_for_current_phase, ContextState.get_queries,
    ContextState.get_route_response_to, ContextState.get_current_phase,
    ContextState.get_current_query, ContextState.get_collaboration_type,
    h1, h2, h3, h4, h5, h6, h7, h8, h9]

/-- Witness for C5 at the initial state and chat id `"c"`. -/
theorem c5_empty_defaults_witness :
    ContextState.get_agents_sequence initialContext "c" = []
    ∧ ContextState.get_required_tool_calls initialContext "c" = []
    ∧ ContextState.get_available_tools_in_chat initialContext "c" = []
    ∧ ContextState.get_agent_phase_assignments initialContext "c" = []
    ∧ ContextState.get_required_agents_for_current_phase initialContext "c" = []
    ∧ ContextState.get_queries initialContext "c" = []
    ∧ ContextState.get_route_response_to initialContext "c" = none
    ∧ ContextState.get_current_phase initialContext "c" = none
    ∧ ContextState.get_current_query initialContext "c" = none
    ∧ ContextState.get_collaboration_type initialContext (some "c") = .INDEPENDENT :=
  c5_empty_defaults initialContext "c" rfl rfl rfl rfl rfl rfl rfl rfl rfl

/-- C8: Required-tool-call bookkeeping.  Appending a tool call for a chat id
with no pending entries and then removing it deletes the key entirely: the
resulting state equals the original state, exactly as if the tool call had
never been appended. -/
theorem c8_tool_call_append_remove (st : ContextState) (chat tool : String)
    (h : st.llm_required_tool_call chat = none) :
    (st.append_required_tool_call chat tool).remove_required_tool_call chat tool = .ok st := by
  have hm : ((st.llm_required_tool_call.set chat [tool]).pop chat)
      = st.llm_required_tool_call := by
    funext q
    by_cases hq : q = chat
    · subst hq; simp [h]
    · simp [hq]
  unfold ContextState.append_required_tool_call ContextState.remove_required_tool_call
  simp [h, hm]

/-- Witness for C8 at the initial state, chat `"c"`, tool `"toolX"`. -/
theorem c8_tool_call_append_remove_witness :
    initialContext.llm_required_tool_call "c" = none
    ∧ (ContextState.append_required_tool_call initialContext "c" "toolX").remove_required_tool_call
        "c" "toolX" = .ok initialContext :=
  ⟨rfl, c8_tool_call_append_remove initialContext "c" "toolX" rfl⟩

/-- C9 (amended): removing a required tool call or a required agent is a
no-op only when the chat id has no entry at all in the corresponding map;
when the chat id is present but the named tool/agent is not in its list,
Python's `list.remove` raises `ValueError` (the claim said such removals
never raise). -/
theorem c9_remove_absent_amended (st : ContextState) (chat name : String) :
    (st.llm_required_tool_call chat = none →
      st.remove_required_tool_call chat name = .ok st)
    ∧ (st.required_agents_for_current_phase chat = none →
      st.remove_required_agent_for_current_phase chat name = .ok st)
    ∧ (∀ l, st.llm_required_tool_call chat = some l → name ∉ l →
      st.remove_required_tool_call chat name = .error .valueError)
    ∧ (∀ l, st.required_agents_for_current_phase chat = some l → name ∉ l →
      st.remove_required_agent_for_current_phase chat name = .error .valueError) := by
  refine ⟨?_, ?_, ?_, ?_⟩
  · intro h
    unfold ContextState.remove_required_tool_call
    simp [h]
  · intro h
    unfold ContextState.remove_required_agent_for_current_phase
    simp [h]
  · intro l h hm
    unfold ContextState.remove_required_tool_call
    simp [h, hm]
  · intro l h hm
    unfold ContextState.remove_required_agent_for_current_phase
    simp [h, hm]

/-- Witness for C9 (amended): on the initial state both removals of an
absent chat id succeed unchanged. -/
theorem c9_remove_absent_amended_witness :
    ContextState.remove_required_tool_call initialContext "c" "t" = .ok initialContext
    ∧ ContextState.remove_required_agent_for_current_phase initialContext "c" "t"
        = .ok initialContext :=
  ⟨(c9_remove_absent_amended initialContext "c" "t").1 rfl,
   (c9_remove_absent_amended initialContext "c" "t").2.1 rfl⟩

/-- C9 counterexample: with `["t1"]` pending for chat `"c"`, removing the
absent tool `"t2"` raises `ValueError`; likewise, with required agents
`["A"]` for the current phase, removing the absent agent `"B"` raises
`ValueError`.  This contradicts the claim that removal of an absent entry
never raises. -/
theorem c9_remove_absent_counterexample :
    ContextState.remove_required_tool_call
      (ContextState.append_required_tool_call initialContext "c" "t1") "c" "t2"
      = .error .valueError
    ∧ (ContextState.set_current_phase
        (ContextState.set_agent_phase_assignments initialContext "c" [["A"]]) "c" 0).bind
        (fun s => ContextState.remove_required_agent_for_current_phase s "c" "B")
      = .error .valueError := by
  constructor <;> rfl

/-- C4 (code bug): `WiseAgentRegistry.register_agent` in the local backend
reads `cls.agents`, an attribute the class never defines (its directory is
`agents_descriptions_dict`), so *every* local registration — including the
very first, conflict-free one — raises `AttributeError` instead of
inserting; in particular the claimed insert-on-fresh-name behaviour never
happens.  The first conjunct evaluates the code at the concrete failing
input (registering `"agent1"` into an empty registry). -/
theorem c4_register_agent_attribute_error :
    WiseAgentRegistry.register_agent initialRegistry "agent1" "the first agent"
      = .error .attributeError
    ∧ ∀ (st : RegistryState) (n d : String),
        WiseAgentRegistry.register_agent st n d = .error .attributeError := by
  exact ⟨rfl, fun st n d => rfl⟩

/-- Intended registration semantics, as implemented by the Redis branch:
conflict raises `NameError` leaving the directory unchanged, fresh names are
inserted.  This documents that the local branch's `AttributeError` is a slip
rather than the design. -/
theorem register_agent_redis_spec (agents : PyDict String) (n d : String) :
    ((agents n).isSome → WiseAgentRegistry.register_agent_redis agents n d = .error .nameError)
    ∧ (agents n = none →
        WiseAgentRegistry.register_agent_redis agents n d = .ok (agents.set n d)) := by
  constructor
  · intro h
    unfold WiseAgentRegistry.register_agent_redis
    simp [h]
  · intro h
    unfold WiseAgentRegistry.register_agent_redis
    simp [h]

/-- Participants lists that can arise in a run of the program: the class
attribute starts as `[]` and is only ever modified by `add_participant`. -/
inductive ParticipantsReachable : List String → Prop where
  | nil : ParticipantsReachable []
  | add (st : ContextState) (a : String) :
      ParticipantsReachable st.participants →
      ParticipantsReachable (st.add_participant a).participants

theorem participantsReachable_nodup {l : List String}
    (h : ParticipantsReachable l) : l.Nodup := by
  induction h with
  | nil => simp
  | add st a _ ih =>
    unfold ContextState.add_participant
    by_cases hm : a ∈ st.participants
    · rw [if_pos hm]; exact ih
    · simp [hm, List.nodup_append, ih]

/-- C10: `add_participant` is idempotent.  On any reachable context state
(the participants list starts empty and is only modified by
`add_participant`, hence duplicate-free), calling `add_participant` twice
with the same agent id leaves exactly one occurrence of that id, and the
second call changes nothing at all. -/
theorem c10_add_participant_idempotent (st : ContextState) (a : String)
    (h : ParticipantsReachable st.participants) :
    ((st.add_participant a).add_participant a).participants.count a = 1
    ∧ (st.add_participant a).add_participant a = st.add_participant a := by
  have hmem : a ∈ (st.add_participant a).participants := by
    unfold ContextState.add_participant
    by_cases hm : a ∈ st.participants
    · simp [hm]
    · simp [hm]
  have hnd : ((st.add_participant a).participants).Nodup :=
    participantsReachable_nodup (ParticipantsReachable.add st a h)
  have hidem : (st.add_participant a).add_participant a = st.add_participant a := by
    by_cases hm : a ∈ st.participants <;>
      simp [ContextState.add_participant, hm]
  exact ⟨by rw [hidem]; exact List.count_eq_one_of_mem hnd hmem, hidem⟩

/-- Witness for C10 at the initial (empty, trivially reachable) state. -/
theorem c10_add_participant_idempotent_witness :
    ((initialContext.add_participant "A").add_participant "A").participants.count "A" = 1
    ∧ (initialContext.add_participant "A").add_participant "A"
        = initialContext.add_participant "A" :=
  c10_add_participant_idempotent initialContext "A" ParticipantsReachable.nil

/-- C3: all `WiseAgentContext` instances share the same underlying
chat-state maps, because those maps are mutable class-level attributes and
the instance methods never rebind them per instance: for any two context
instances with different names, a mutation performed through one
(`append_chat_completion`, `add_participant`, `set_collaboration_type`) is
observable through the getters of the other.  In the embedding the shared
class-level state is the single `ContextState` that every instance method
reads and writes. -/
theorem c3_contexts_share_class_state (c1 c2 : WiseAgentContext)
    (_hne : c1.name ≠ c2.name) (st : ContextState) (chat : String) (m : ChatMsg)
    (a : String) (ct : WiseAgentCollaborationType) :
    c2.llm_chat_completion (c1.append_chat_completion st chat m) chat
      = some (((st.llm_chat_completion chat).getD []) ++ [m])
    ∧ a ∈ c2.participants (c1.add_participant st a)
    ∧ c2.get_collaboration_type (c1.set_collaboration_type st chat ct) (some chat) = ct := by
  refine ⟨?_, ?_, ?_⟩
  · simp [WiseAgentContext.llm_chat_completion, WiseAgentContext.append_chat_completion,
      ContextState.append_chat_completion]
  · by_cases hm : a ∈ st.participants <;>
      simp [WiseAgentContext.participants, WiseAgentContext.add_participant,
        ContextState.add_participant, hm]
  · simp [WiseAgentContext.get_collaboration_type, WiseAgentContext.set_collaboration_type,
      ContextState.set_collaboration_type, ContextState.get_collaboration_type]

/-- C2 counterexample: with phase assignments `[["A","B"],["C"]]` for chat
`"c"` and current phase `0`, removing `"A"` and then `"B"` leaves the
`required_agents_for_current_phase` entry for `"c"` mapped to the *empty
list* — the key is **not** deleted, contradicting the claim that the chat
then has no entry (the local branch of
`remove_required_agent_for_current_phase` never pops the key). -/
theorem c2_required_agents_key_not_deleted :
    (((ContextState.set_current_phase
        (ContextState.set_agent_phase_assignments initialContext "c" [["A", "B"], ["C"]])
        "c" 0).bind
      (fun s => ContextState.remove_required_agent_for_current_phase s "c" "A")).bind
      (fun s => ContextState.remove_required_agent_for_current_phase s "c" "B")).map
      (fun s => s.required_agents_for_current_phase "c")
    = .ok (some [])
    ∧ some ([] : List String) ≠ none := by
  exact ⟨rfl, by simp⟩

/-- C2 (amended): phased protocol on phases `[[A,B],[C]]`.
`set_current_phase(chat, 0)` makes the required agents `[A, B]`; removing
`A` and then `B` leaves the required-agents entry for the chat present as an
empty list (the local backend does not delete the key — only the Redis
branch does); a subsequent `get_agents_for_next_phase` returns `[C]` and
sets the current phase to `1`; calling it again at the last phase returns
`none` and leaves the state unchanged. -/
theorem c2_phased_protocol_amended (st : ContextState) (chat A B C : String) :
    ∃ st2 st3 st4 st5,
      (ContextState.set_agent_phase_assignments st chat [[A, B], [C]]).set_current_phase chat 0
        = .ok st2
      ∧ st2.get_required_agents_for_current_phase chat = [A, B]
      ∧ st2.get_current_phase chat = some 0
      ∧ st2.remove_required_agent_for_current_phase chat A = .ok st3
      ∧ st3.remove_required_agent_for_current_phase chat B = .ok st4
      ∧ st4.required_agents_for_current_phase chat = some []
      ∧ st4.get_agents_for_next_phase chat = .ok (some [C], st5)
      ∧ st5.get_current_phase chat = some 1
      ∧ st5.get_agents_for_next_phase chat = .ok (none, st5) := by
  refine ⟨_, _, _, _,
    set_current_phase_ok _ chat [[A, B], [C]] 0
      (by simp [ContextState.set_agent_phase_assignments]) (by norm_num),
    ?_, ?_,
    remove_required_agent_ok _ chat A [A, B]
      (by simp [ContextState.set_agent_phase_assignments]) (by simp),
    remove_required_agent_ok _ chat B ([A, B].erase A)
      (by simp [ContextState.set_agent_phase_assignments]) (by simp),
    ?_,
    get_agents_for_next_phase_advance _ chat 0 [[A, B], [C]]
      (by simp [ContextState.set_agent_phase_assignments])
      (by simp [ContextState.set_agent_phase_assignments]) (by norm_num),
    ?_,
    get_agents_for_next_phase_last _ chat 1
      (by simp [ContextState.set_agent_phase_assignments])
      (by simp [ContextState.get_agent_phase_assignments,
        ContextState.set_agent_phase_assignments])⟩
  · simp [ContextState.get_required_agents_for_current_phase,
      ContextState.set_agent_phase_assignments]
  · simp [ContextState.get_current_phase, ContextState.set_agent_phase_assignments]
  · simp [ContextState.set_agent_phase_assignments]
  · simp [ContextState.get_current_phase, ContextState.set_agent_phase_assignments]

/-- C7: snapshot independence.  Setting the phase snapshots
`agent_phase_assignments[chat][i]` into the required-agents map as an
independent copy (a `copy.deepcopy` in the source), so removing an agent
from the required set changes only `required_agents_for_current_phase` and
leaves the phase assignments (this phase and every other) and every other
component of the state unchanged. -/
theorem c7_snapshot_independence (st : ContextState) (chat a : String)
    (phases : List (List String)) (i : Nat) (hi : i < phases.length)
    (ha : a ∈ phases.getD i []) :
    ∃ st2 st3,
      (ContextState.set_agent_phase_assignments st chat phases).set_current_phase chat i
        = .ok st2
      ∧ st2.get_required_agents_for_current_phase chat = phases.getD i []
      ∧ st2.remove_required_agent_for_current_phase chat a = .ok st3
      ∧ st3.get_agent_phase_assignments chat = phases
      ∧ st3.agent_phase_assignments = st2.agent_phase_assignments
      ∧ st3.get_required_agents_for_current_phase chat = (phases.getD i []).erase a
      ∧ st3.message_trace = st2.message_trace
      ∧ st3.participants = st2.participants
      ∧ st3.llm_chat_completion = st2.llm_chat_completion
      ∧ st3.llm_required_tool_call = st2.llm_required_tool_call
      ∧ st3.llm_available_tools_in_chat = st2.llm_available_tools_in_chat
      ∧ st3.agents_sequence = st2.agents_sequence
      ∧ st3.route_response_to = st2.route_response_to
      ∧ st3.current_phase = st2.current_phase
      ∧ st3.queries = st2.queries
      ∧ st3.collaboration_type = st2.collaboration_type := by
  refine ⟨_, _,
    set_current_phase_ok _ chat phases i
      (by simp [ContextState.set_agent_phase_assignments]) hi,
    ?_,
    remove_required_agent_ok _ chat a (phases.getD i [])
      (by simp [ContextState.set_agent_phase_assignments]) ha,
    ?_, ?_, ?_, ?_, ?_, ?_, ?_, ?_, ?_, ?_, ?_, ?_, ?_⟩
  · simp [ContextState.get_required_agents_for_current_phase,
      ContextState.set_agent_phase_assignments]
  · simp [ContextState.get_agent_phase_assignments,
      ContextState.set_agent_phase_assignments]
  all_goals simp [ContextState.set_agent_phase_assignments,
    ContextState.get_required_agents_for_current_phase]

/-- Witness for C7 with phases `[["A","B"],["C"]]`, phase `0`, agent `"A"`. -/
theorem c7_snapshot_independence_witness :
    (0 < ([["A", "B"], ["C"]] : List (List String)).length
      ∧ "A" ∈ ([["A", "B"], ["C"]] : List (List String)).getD 0 [])
    ∧ ∃ st2 st3,
      (ContextState.set_agent_phase_assignments initialContext "c"
        [["A", "B"], ["C"]]).set_current_phase "c" 0 = .ok st2
      ∧ st2.get_required_agents_for_current_phase "c"
          = ([["A", "B"], ["C"]] : List (List String)).getD 0 []
      ∧ st2.remove_required_agent_for_current_phase "c" "A" = .ok st3
      ∧ st3.get_agent_phase_assignments "c" = [["A", "B"], ["C"]]
      ∧ st3.agent_phase_assignments = st2.agent_phase_assignments
      ∧ st3.get_required_agents_for_current_phase "c"
          = (([["A", "B"], ["C"]] : List (List String)).getD 0 []).erase "A"
      ∧ st3.message_trace = st2.message_trace
      ∧ st3.participants = st2.participants
      ∧ st3.llm_chat_completion = st2.llm_chat_completion
      ∧ st3.llm_required_tool_call = st2.llm_required_tool_call
      ∧ st3.llm_available_tools_in_chat = st2.llm_available_tools_in_chat
      ∧ st3.agents_sequence = st2.agents_sequence
      ∧ st3.route_response_to = st2.route_response_to
      ∧ st3.current_phase = st2.current_phase
      ∧ st3.queries = st2.queries
      ∧ st3.collaboration_type = st2.collaboration_type :=
  ⟨⟨by decide, by decide⟩,
   c7_snapshot_independence initialContext "c" "A" [["A", "B"], ["C"]] 0
     (by decide) (by decide)⟩

/-- C1: sequential routing.  For a chat with collaboration type SEQUENTIAL,
agent sequence `[A, B, C]` (distinct names) and route-response-to `R`, a
non-empty response handled by `A` or `B` is dispatched as a new REQUEST
carrying the response text to the agent immediately following in the
sequence; a response handled by the last agent `C` is dispatched as the
final RESPONSE to `R`; an agent absent from the sequence behaves like the
last agent. -/
theorem c1_sequential_routing (st : ContextState)
    (chat context_name sender R A B C s : String)
    (hs : s ≠ "")
    (hseq : st.get_agents_sequence chat = [A, B, C])
    (hroute : st.get_route_response_to chat = some R)
    (hct : st.get_collaboration_type (some chat) = .SEQUENTIAL)
    (hAB : A ≠ B) (hAC : A ≠ C) (hBC : B ≠ C) :
    (WiseAgent.handle_response st A (some s) sender context_name chat
        (st.get_collaboration_type (some chat))).1
      = [{ kind := .request, content := s, sender := A, context_name := context_name,
           chat_id := chat, ack := false, dest := some B }]
    ∧ (WiseAgent.handle_response st B (some s) sender context_name chat
        (st.get_collaboration_type (some chat))).1
      = [{ kind := .request, content := s, sender := B, context_name := context_name,
           chat_id := chat, ack := false, dest := some C }]
    ∧ (WiseAgent.handle_response st C (some s) sender context_name chat
        (st.get_collaboration_type (some chat))).1
      = [{ kind := .response, content := s, sender := C, context_name := context_name,
           chat_id := chat, ack := false, dest := some R }]
    ∧ ∀ X, X ∉ ([A, B, C] : List String) →
        (WiseAgent.handle_response st X (some s) sender context_name chat
          (st.get_collaboration_type (some chat))).1
        = [{ kind := .response, content := s, sender := X, context_name := context_name,
             chat_id := chat, ack := false, dest := some R }] := by
  have hnA : st.get_next_agent_in_sequence chat A = some B := by
    unfold ContextState.get_next_agent_in_sequence
    rw [hseq]
    simp [List.indexOf_cons_self, List.getD]
  have hnB : st.get_next_agent_in_sequence chat B = some C := by
    unfold ContextState.get_next_agent_in_sequence
    rw [hseq]
    simp [List.indexOf_cons_ne _ hAB, List.indexOf_cons_self, List.getD]
  have hnC : st.get_next_agent_in_sequence chat C = none := by
    unfold ContextState.get_next_agent_in_sequence
    rw [hseq]
    simp [List.indexOf_cons_ne _ hAC, List.indexOf_cons_ne _ hBC,
      List.indexOf_cons_self, List.getD]
  rw [hct]
  refine ⟨?_, ?_, ?_, ?_⟩
  · unfold WiseAgent.handle_response
    simp [hs, hnA, WiseAgent.send_request]
  · unfold WiseAgent.handle_response
    simp [hs, hnB, WiseAgent.send_request]
  · unfold WiseAgent.handle_response
    simp [hs, hnC, hroute, WiseAgent.send_response]
  · intro X hX
    have hnX : st.get_next_agent_in_sequence chat X = none := by
      unfold ContextState.get_next_agent_in_sequence
      rw [hseq]
      simp [hX]
    unfold WiseAgent.handle_response
    simp [hs, hnX, hroute, WiseAgent.send_response]

/-- A concrete state for the C1 witness: chat `"c"` is SEQUENTIAL with
sequence `["A","B","C"]` routing the final response to `"R"`. -/
def c1WitnessState : ContextState :=
  ContextState.set_collaboration_type
    (ContextState.set_route_response_to
      (ContextState.set_agents_sequence initialContext "c" ["A", "B", "C"]) "c" "R")
    "c" .SEQUENTIAL

/-- Witness for C1 on `c1WitnessState`, with the absent-agent case
instantiated at agent `"Z"`. -/
theorem c1_sequential_routing_witness :
    ("out" : String) ≠ ""
    ∧ (WiseAgent.handle_response c1WitnessState "A" (some "out") "S" "ctx" "c"
        (ContextState.get_collaboration_type c1WitnessState (some "c"))).1
      = [{ kind := .request, content := "out", sender := "A", context_name := "ctx",
           chat_id := "c", ack := false, dest := some "B" }]
    ∧ (WiseAgent.handle_response c1WitnessState "B" (some "out") "S" "ctx" "c"
        (ContextState.get_collaboration_type c1WitnessState (some "c"))).1
      = [{ kind := .request, content := "out", sender := "B", context_name := "ctx",
           chat_id := "c", ack := false, dest := some "C" }]
    ∧ (WiseAgent.handle_response c1WitnessState "C" (some "out") "S" "ctx" "c"
        (ContextState.get_collaboration_type c1WitnessState (some "c"))).1
      = [{ kind := .response, content := "out", sender := "C", context_name := "ctx",
           chat_id := "c", ack := false, dest := some "R" }]
    ∧ (WiseAgent.handle_response c1WitnessState "Z" (some "out") "S" "ctx" "c"
        (ContextState.get_collaboration_type c1WitnessState (some "c"))).1
      = [{ kind := .response, content := "out", sender := "Z", context_name := "ctx",
           chat_id := "c", ack := false, dest := some "R" }] := by
  have H := c1_sequential_routing c1WitnessState "c" "ctx" "S" "R" "A" "B" "C" "out"
    (by decide) rfl rfl rfl (by decide) (by decide) (by decide)
  exact ⟨by decide, H.1, H.2.1, H.2.2.1, H.2.2.2 "Z" (by decide)⟩

/-- A state falsifying C6: chat `"c"` is PHASED but has no stored chat
history. -/
def c6CounterexampleState : ContextState :=
  ContextState.set_collaboration_type initialContext "c" .PHASED

/-- C6 counterexample: for a PHASED chat with no stored history,
`get_conversation_history_if_needed` returns Python `None`
(`context.llm_chat_completion.get(chat_id)` on an absent key), not the
empty list the claim requires. -/
theorem c6_history_none_counterexample :
    ContextState.get_collaboration_type c6CounterexampleState (some "c") = .PHASED
    ∧ WiseAgent.get_conversation_history_if_needed c6CounterexampleState (some "c")
        (ContextState.get_collaboration_type c6CounterexampleState (some "c")) = none
    ∧ (none : Option (List ChatMsg)) ≠ some [] := by
  exact ⟨rfl, rfl, by simp⟩

/-- C6 (amended): the history handed to the processing callback equals the
stored chat history when the collaboration type is PHASED or CHAT *and* an
entry exists for the chat id; when PHASED/CHAT but no entry is stored the
callback receives `None` (not the empty list); for SEQUENTIAL or INDEPENDENT
chats — and for a `None` or empty chat id — it receives the empty list. -/
theorem c6_history_selection_amended (st : ContextState) (cid : String)
    (hcid : cid ≠ "") :
    (∀ l, st.llm_chat_completion cid = some l →
      (st.get_collaboration_type (some cid) = .PHASED
        ∨ st.get_collaboration_type (some cid) = .CHAT) →
      WiseAgent.get_conversation_history_if_needed st (some cid)
        (st.get_collaboration_type (some cid)) = some l)
    ∧ (st.llm_chat_completion cid = none →
      (st.get_collaboration_type (some cid) = .PHASED
        ∨ st.get_collaboration_type (some cid) = .CHAT) →
      WiseAgent.get_conversation_history_if_needed st (some cid)
        (st.get_collaboration_type (some cid)) = none)
    ∧ ((st.get_collaboration_type (some cid) = .SEQUENTIAL
        ∨ st.get_collaboration_type (some cid) = .INDEPENDENT) →
      WiseAgent.get_conversation_history_if_needed st (some cid)
        (st.get_collaboration_type (some cid)) = some [])
    ∧ (∀ ct, WiseAgent.get_conversation_history_if_needed st none ct = some [])
    ∧ (∀ ct, WiseAgent.get_conversation_history_if_needed st (some "") ct = some []) := by
  refine ⟨?_, ?_, ?_, ?_, ?_⟩
  · intro l hl hpc
    simp only [WiseAgent.get_conversation_history_if_needed]
    rw [if_pos hcid, if_pos hpc]
    exact hl
  · intro hl hpc
    simp only [WiseAgent.get_conversation_history_if_needed]
    rw [if_pos hcid, if_pos hpc]
    exact hl
  · intro hsi
    simp only [WiseAgent.get_conversation_history_if_needed]
    rcases hsi with h | h <;> rw [h] <;> simp [hcid]
  · intro ct
    rfl
  · intro ct
    simp [WiseAgent.get_conversation_history_if_needed]

/-- A state for the C6 witness: chat `"c"` is PHASED and has one stored
history record. -/
def c6WitnessState : ContextState :=
  ContextState.append_chat_completion
    (ContextState.set_collaboration_type initialContext "c" .PHASED) "c" ⟨"user", "q"⟩

/-- Witness for C6 (amended) on `c6WitnessState`. -/
theorem c6_history_selection_amended_witness :
    ("c" : String) ≠ ""
    ∧ WiseAgent.get_conversation_history_if_needed c6WitnessState (some "c")
        (ContextState.get_collaboration_type c6WitnessState (some "c"))
      = some [⟨"user", "q"⟩] :=
  ⟨by decide,
   (c6_history_selection_amended c6WitnessState "c" (by decide)).1 [⟨"user", "q"⟩] rfl
     (Or.inl rfl)⟩

/-- Witness for C3 with two distinct instances `ctx1` and `ctx2`. -/
theorem c3_contexts_share_class_state_witness :
    (WiseAgentContext.mk "ctx1").name ≠ (WiseAgentContext.mk "ctx2").name
    ∧ ((WiseAgentContext.mk "ctx2").llm_chat_completion
        ((WiseAgentContext.mk "ctx1").append_chat_completion initialContext "c"
          ⟨"assistant", "hi"⟩) "c"
        = some [⟨"assistant", "hi"⟩]
      ∧ "A" ∈ (WiseAgentContext.mk "ctx2").participants
          ((WiseAgentContext.mk "ctx1").add_participant initialContext "A")
      ∧ (WiseAgentContext.mk "ctx2").get_collaboration_type
          ((WiseAgentContext.mk "ctx1").set_collaboration_type initialContext "c" .CHAT)
          (some "c") = .CHAT) :=
  ⟨by decide,
   c3_contexts_share_class_state (WiseAgentContext.mk "ctx1") (WiseAgentContext.mk "ctx2")
     (by decide) initialContext "c" ⟨"assistant", "hi"⟩ "A" .CHAT⟩

end WiseAgents
